import Mathlib

/-!
Verification of the ns3 OSPF neighbor-discovery core (`ospf-l4-protocol.cc` /
`ospf-l4-protocol.h`).  The adjacency state machine (`HandleDownResponse`,
`HandleInitResponse`, `HandleTwoWayResponse`, `Receive`) and the senders
(`SendDownPacket`, `SendInitPacket`, `SendTwoWayPacket`, `Send`) are embedded
as pure functions on an explicit protocol state (neighbor table, router id,
area id); emitted packets are collected in a list.  The neighbor-table and
hello-header classes (`OspfNeighborTable`, `OspfHello`) are declared and used
by that code but their implementation files are not part of the sources here,
so they are modelled from the specification, as marked on each definition.
-/

namespace Ospf

/-- The adjacency states, matching the `OspfL4Protocol::States` enum
(DOWN = 0 .. FULL = 7). -/
inductive States where
  | DOWN
  | ATTEMPT
  | INIT
  | TWO_WAY
  | EXSTART
  | EXCHANGE
  | LOADING
  | FULL
deriving DecidableEq, Repr

/-- The packet kinds, matching the `OspfL4Protocol::PacketType` enum. -/
inductive PacketType where
  | HELLO
  | DBD
  | LSA
  | LSU
  | LSAck
deriving DecidableEq, Repr

/-- Address scope classification of `Ipv4InterfaceAddress` (ns3:
HOST, LINK, GLOBAL).  The senders refuse to send from HOST-scoped
addresses. -/
inductive Scope where
  | HOST
  | LINK
  | GLOBAL
deriving DecidableEq, Repr

/-- An interface address: local address, mask and scope, the three pieces the
core reads from `Ipv4InterfaceAddress` (GetLocal, GetMask, GetScope).
Addresses and masks are abstracted as natural numbers (32-bit values). -/
structure Ipv4InterfaceAddress where
  localAddr : Nat
  mask : Nat
  scope : Scope
deriving DecidableEq, Repr

/-- An interface: an identity and its list of addresses, indexed by
`GetAddress`. -/
structure Ipv4Interface where
  ifid : Nat
  addrs : List Ipv4InterfaceAddress
deriving DecidableEq, Repr

/-- `Ipv4Interface::GetAddress`: index into the address list. -/
def Ipv4Interface.getAddress (iface : Ipv4Interface) (i : Nat) : Ipv4InterfaceAddress :=
  iface.addrs.getD i ⟨0, 0, Scope.HOST⟩

/-- Modelled from the spec: `NeighborRecord` of the neighbor table
(`OspfNeighborTable`, whose implementation file is absent from the sources):
peer address, advertised mask, weak interface reference (kept as the
interface identity), adjacency state and the neighbor's self-declared
router id. -/
structure NeighborRecord where
  peer_address : Nat
  mask : Nat
  ipInterface : Nat
  state : States
  router_id : Nat
deriving DecidableEq, Repr

/-- `OspfNeighborTable::neighborList`: an ordered sequence of rows of
neighbor records, mirroring the two-level wire shape. -/
abbrev neighborList := List (List NeighborRecord)

/-- Membership test used by the handlers: does some record in some row carry
this `router_id`?  (Embeds the double loop over rows and records.) -/
def containsRouterId (t : neighborList) (rid : Nat) : Bool :=
  t.any (fun row => row.any (fun r => r.router_id == rid))

/-- Modelled from the spec: `OspfNeighborTable::addNeighbors` inserts a new
record if no record with this `router_id` exists and is idempotent by
`router_id` — calling it again with the same id leaves table membership
unchanged (implementation file absent from the sources). -/
def addNeighbors (t : neighborList) (peer : Nat) (mask : Nat) (iface : Nat)
    (st : States) (rid : Nat) : neighborList :=
  if containsRouterId t rid then t else t ++ [[⟨peer, mask, iface, st, rid⟩]]

/-- Modelled from the spec: `OspfNeighborTable::get_State` looks up the state
recorded for a `router_id`, surfacing an absent id as an explicit not-found
signal (`none`) rather than a default value (implementation file absent from
the sources). -/
def get_State : neighborList → Nat → Option States
  | [], _ => none
  | row :: rest, rid =>
    match row.find? (fun r => r.router_id == rid) with
    | some r => some r.state
    | none => get_State rest rid

/-- Modelled from the spec: `OspfNeighborTable::set_State` overwrites the
state of every record carrying the given `router_id`, with no transition
validation; an absent id leaves the table unchanged (implementation file
absent from the sources). -/
def set_State (t : neighborList) (st : States) (rid : Nat) : neighborList :=
  t.map (fun row =>
    row.map (fun r => if r.router_id == rid then { r with state := st } else r))

/-- Modelled from the spec: `OspfNeighborTable::getCurrentNeighbors` returns a
read-only snapshot of the table (implementation file absent from the
sources). -/
def getCurrentNeighbors (t : neighborList) : neighborList := t

/-- The outer protocol header fields the handlers read (`GetState`,
`GetMask`) and the senders set (`SetState`, `SetPacketType`, `SetMask`). -/
structure OspfHeader where
  state : States
  packetType : PacketType
  mask : Nat
deriving DecidableEq, Repr

/-- Modelled from the spec: the `OspfHello` discovery body — embedded
neighbor snapshot, sender's router id, sender's area id (`ospf-hello.h`
absent from the sources). -/
structure OspfHello where
  neighbors : neighborList
  routerId : Nat
  areaId : Int
deriving DecidableEq, Repr

/-- `OSPF_ALL_NODE` = "224.0.0.5" as a 32-bit value:
224 * 2^24 + 0 * 2^16 + 0 * 2^8 + 5. -/
def ospfAllNode : Nat := 3758096389

/-- One packet handed to the transport by `OspfL4Protocol::Send`: source
address, destination address, mask, hello body, packet type and asserted
state. -/
structure SentPacket where
  saddr : Nat
  daddr : Nat
  mask : Nat
  hello : OspfHello
  packetType : PacketType
  state : States
deriving DecidableEq, Repr

/-- `OspfL4Protocol::SendDownPacket`: compose a hello carrying the current
table snapshot, local router id and area id, and send it from the given
address to the fixed multicast destination `OSPF_ALL_NODE` with state DOWN —
unless the address is HOST-scoped, in which case nothing is sent. -/
def sendDownPacket (table : neighborList) (routerId : Nat) (areaId : Int)
    (address : Ipv4InterfaceAddress) : List SentPacket :=
  if address.scope ≠ Scope.HOST then
    [⟨address.localAddr, ospfAllNode, address.mask,
      ⟨getCurrentNeighbors table, routerId, areaId⟩, PacketType.HELLO, States.DOWN⟩]
  else []

/-- `OspfL4Protocol::SendInitPacket`: like `sendDownPacket` but unicast to
`daddr` with state INIT. -/
def sendInitPacket (table : neighborList) (routerId : Nat) (areaId : Int)
    (address : Ipv4InterfaceAddress) (daddr : Nat) : List SentPacket :=
  if address.scope ≠ Scope.HOST then
    [⟨address.localAddr, daddr, address.mask,
      ⟨getCurrentNeighbors table, routerId, areaId⟩, PacketType.HELLO, States.INIT⟩]
  else []

/-- `OspfL4Protocol::SendTwoWayPacket`: like `sendInitPacket` but with state
TWO_WAY. -/
def sendTwoWayPacket (table : neighborList) (routerId : Nat) (areaId : Int)
    (address : Ipv4InterfaceAddress) (daddr : Nat) : List SentPacket :=
  if address.scope ≠ Scope.HOST then
    [⟨address.localAddr, daddr, address.mask,
      ⟨getCurrentNeighbors table, routerId, areaId⟩, PacketType.HELLO, States.TWO_WAY⟩]
  else []

/-- `OspfL4Protocol::HandleDownResponse`: if the hello's area id equals the
local area and the header's mask equals the mask of the receiving
interface's address, add the sender to the table (peer address, mask,
interface, header state, sender's router id) and reply with an Init packet
to the sender; otherwise do nothing. -/
def handleDownResponse (routerId : Nat) (areaId : Int) (table : neighborList)
    (helloHeader : OspfHello) (src : Nat) (ospfHeader : OspfHeader)
    (interface : Ipv4Interface) (incomingIf : Nat) : neighborList × List SentPacket :=
  if helloHeader.areaId = areaId ∧ ospfHeader.mask = (interface.getAddress incomingIf).mask then
    let t := addNeighbors table src ospfHeader.mask interface.ifid ospfHeader.state
      helloHeader.routerId
    (t, sendInitPacket t routerId areaId (interface.getAddress incomingIf) src)
  else
    (table, [])

/-- `OspfL4Protocol::HandleInitResponse`: empty embedded snapshot sends a
Down packet; otherwise the mutual-visibility check (local router id present
in the snapshot, area id equal) selects between adding the unknown sender
and replying Two-Way, marking the local router id's state Init and replying
Two-Way, or re-sending Down. -/
def handleInitResponse (routerId : Nat) (areaId : Int) (table : neighborList)
    (helloHeader : OspfHello) (src : Nat) (ospfHeader : OspfHeader)
    (interface : Ipv4Interface) (incomingIf : Nat) : neighborList × List SentPacket :=
  let neighbors := helloHeader.neighbors
  if neighbors.isEmpty then
    (table, sendDownPacket table routerId areaId (interface.getAddress incomingIf))
  else
    let check := containsRouterId neighbors routerId && (helloHeader.areaId == areaId)
    if check then
      let add_neighbor :=
        if table.isEmpty then true else !(containsRouterId table helloHeader.routerId)
      if add_neighbor then
        let t := addNeighbors table src ospfHeader.mask interface.ifid ospfHeader.state
          helloHeader.routerId
        (t, sendTwoWayPacket t routerId areaId (interface.getAddress incomingIf) src)
      else
        let t := set_State table States.INIT routerId
        (t, sendTwoWayPacket t routerId areaId (interface.getAddress incomingIf) src)
    else
      (table, sendDownPacket table routerId areaId (interface.getAddress incomingIf))

/-- `OspfL4Protocol::HandleTwoWayResponse`: empty embedded snapshot sends a
Down packet; a failed mutual-visibility check sends a Down packet; with the
check passed, an unknown sender sends a Down packet, and a known sender
inspects the state recorded for the *local* router id — already TWO_WAY is
terminal (nothing sent), otherwise that state is set to TWO_WAY and a
Two-Way packet is sent back. -/
def handleTwoWayResponse (routerId : Nat) (areaId : Int) (table : neighborList)
    (helloHeader : OspfHello) (src : Nat) (ospfHeader : OspfHeader)
    (interface : Ipv4Interface) (incomingIf : Nat) : neighborList × List SentPacket :=
  let neighbors := helloHeader.neighbors
  if neighbors.isEmpty then
    (table, sendDownPacket table routerId areaId (interface.getAddress incomingIf))
  else
    let check := containsRouterId neighbors routerId && (helloHeader.areaId == areaId)
    if check then
      let neighbor_exist :=
        if table.isEmpty then false else containsRouterId table helloHeader.routerId
      if neighbor_exist then
        if get_State table routerId = some States.TWO_WAY then
          (table, [])
        else
          let t := set_State table States.TWO_WAY routerId
          (t, sendTwoWayPacket t routerId areaId (interface.getAddress incomingIf) src)
      else
        (table, sendDownPacket table routerId areaId (interface.getAddress incomingIf))
    else
      (table, sendDownPacket table routerId areaId (interface.getAddress incomingIf))

/-- `OspfL4Protocol::Receive` (IPv4): aborts with a fatal error when the
packet carries no incoming-interface tag, before any state-machine dispatch;
otherwise dispatches on the header's asserted state through the three
handlers in sequence. -/
def receive (routerId : Nat) (areaId : Int) (table : neighborList)
    (hasInterfaceTag : Bool) (helloHeader : OspfHello) (src : Nat)
    (ospfHeader : OspfHeader) (interface : Ipv4Interface) (incomingIf : Nat) :
    Except String (neighborList × List SentPacket) :=
  if !hasInterfaceTag then
    Except.error "No incoming interface on RIP message, aborting."
  else
    let r1 :=
      if ospfHeader.state = States.DOWN then
        handleDownResponse routerId areaId table helloHeader src ospfHeader interface incomingIf
      else (table, [])
    let r2 :=
      if ospfHeader.state = States.INIT then
        handleInitResponse routerId areaId r1.1 helloHeader src ospfHeader interface incomingIf
      else (r1.1, [])
    let r3 :=
      if ospfHeader.state = States.TWO_WAY then
        handleTwoWayResponse routerId areaId r2.1 helloHeader src ospfHeader interface incomingIf
      else (r2.1, [])
    Except.ok (r3.1, r1.2 ++ r2.2 ++ r3.2)

/-- Number of records in the table carrying a given `router_id`. -/
def ridCount : neighborList → Nat → Nat
  | [], _ => 0
  | row :: rest, rid =>
    (row.filter (fun r => r.router_id == rid)).length + ridCount rest rid

/-- The table invariant: at most one record per distinct `router_id`. -/
def uniquePerRouterId (t : neighborList) : Prop :=
  ∀ rid, ridCount t rid ≤ 1

/-! ### Helper lemmas about the table operations -/

theorem isEmpty_false_of_contains {t : neighborList} {rid : Nat}
    (h : containsRouterId t rid = true) : t.isEmpty = false := by
  cases t with
  | nil => simp [containsRouterId] at h
  | cons a l => rfl

theorem containsRouterId_append (t1 t2 : neighborList) (rid : Nat) :
    containsRouterId (t1 ++ t2) rid =
      (containsRouterId t1 rid || containsRouterId t2 rid) := by
  simp [containsRouterId, List.any_append]

theorem addNeighbors_already {t : neighborList} {rid : Nat}
    (h : containsRouterId t rid = true) (p m i : Nat) (s : States) :
    addNeighbors t p m i s rid = t := by
  simp [addNeighbors, h]

theorem contains_addNeighbors_self (t : neighborList) (p m i : Nat) (s : States)
    (rid : Nat) : containsRouterId (addNeighbors t p m i s rid) rid = true := by
  unfold addNeighbors
  split
  · assumption
  · simp [containsRouterId, List.any_append]

theorem ridCount_append (t1 t2 : neighborList) (r : Nat) :
    ridCount (t1 ++ t2) r = ridCount t1 r + ridCount t2 r := by
  induction t1 with
  | nil => simp [ridCount]
  | cons a l ih => simp [ridCount, ih]; omega

theorem ridCount_eq_zero_of_not_contains {t : neighborList} {r : Nat}
    (h : containsRouterId t r = false) : ridCount t r = 0 := by
  induction t with
  | nil => rfl
  | cons row rest ih =>
    simp only [containsRouterId, List.any_cons, Bool.or_eq_false_iff] at h
    have h1 : row.filter (fun x => x.router_id == r) = [] :=
      List.filter_eq_nil_iff.mpr (fun a ha => by
        have := List.any_eq_false.mp h.1 a ha
        simpa using this)
    have h2 : ridCount rest r = 0 := ih h.2
    simp [ridCount, h1, h2]

theorem ridCount_pos_of_contains {t : neighborList} {r : Nat}
    (h : containsRouterId t r = true) : 0 < ridCount t r := by
  induction t with
  | nil => simp [containsRouterId] at h
  | cons row rest ih =>
    simp only [containsRouterId, List.any_cons, Bool.or_eq_true] at h
    rcases h with h | h
    · obtain ⟨x, hx, hgx⟩ := List.any_eq_true.mp h
      have hmem : x ∈ row.filter (fun y => y.router_id == r) :=
        List.mem_filter.mpr ⟨hx, hgx⟩
      have : 0 < (row.filter (fun y => y.router_id == r)).length :=
        List.length_pos.mpr (List.ne_nil_of_mem hmem)
      simp only [ridCount]
      omega
    · have := ih h
      simp only [ridCount]
      omega

theorem ridCount_addNeighbors_of_not_contains {t : neighborList} {rid : Nat}
    (h : containsRouterId t rid = false) (p m i : Nat) (s : States) (r : Nat) :
    ridCount (addNeighbors t p m i s rid) r =
      ridCount t r + (if rid = r then 1 else 0) := by
  simp only [addNeighbors, h, Bool.false_eq_true, if_false, ridCount_append]
  by_cases hr : rid = r <;> simp [ridCount, hr]

theorem unique_addNeighbors {t : neighborList} (h : uniquePerRouterId t)
    (p m i : Nat) (s : States) (rid : Nat) :
    uniquePerRouterId (addNeighbors t p m i s rid) := by
  intro r
  by_cases hc : containsRouterId t rid = true
  · rw [addNeighbors_already hc]
    exact h r
  · have hc' : containsRouterId t rid = false := by simpa using hc
    rw [ridCount_addNeighbors_of_not_contains hc']
    by_cases hr : rid = r
    · subst hr
      have h0 : ridCount t rid = 0 := ridCount_eq_zero_of_not_contains hc'
      simp [h0]
    · have := h r
      simp [hr]
      omega

theorem router_id_map_set (x : NeighborRecord) (st : States) (rid : Nat) :
    (if x.router_id == rid then { x with state := st } else x).router_id = x.router_id := by
  by_cases h : (x.router_id == rid) = true <;> simp [h]

theorem filterLen_map_set (row : List NeighborRecord) (st : States) (rid r : Nat) :
    ((row.map (fun x => if x.router_id == rid then { x with state := st } else x)).filter
        (fun x => x.router_id == r)).length =
      (row.filter (fun x => x.router_id == r)).length := by
  rw [← List.countP_eq_length_filter, ← List.countP_eq_length_filter, List.countP_map]
  exact List.countP_congr (fun x _ => by rw [Function.comp_apply, router_id_map_set])

theorem ridCount_set_State (t : neighborList) (st : States) (rid r : Nat) :
    ridCount (set_State t st rid) r = ridCount t r := by
  induction t with
  | nil => rfl
  | cons row rest ih =>
    simp only [set_State, List.map_cons, ridCount] at *
    rw [filterLen_map_set, ih]

theorem unique_set_State {t : neighborList} (h : uniquePerRouterId t)
    (st : States) (rid : Nat) : uniquePerRouterId (set_State t st rid) := by
  intro r
  rw [ridCount_set_State]
  exact h r

/-! ### Lemmas about the senders' output -/

theorem mem_sendDownPacket {p : SentPacket} {t : neighborList} {routerId : Nat}
    {areaId : Int} {addr : Ipv4InterfaceAddress}
    (h : p ∈ sendDownPacket t routerId areaId addr) :
    p.state = States.DOWN ∧ p.daddr = ospfAllNode := by
  unfold sendDownPacket at h
  split at h
  · simp at h
    subst h
    exact ⟨rfl, rfl⟩
  · simp at h

theorem mem_sendInitPacket {p : SentPacket} {t : neighborList} {routerId : Nat}
    {areaId : Int} {addr : Ipv4InterfaceAddress} {d : Nat}
    (h : p ∈ sendInitPacket t routerId areaId addr d) :
    p.state = States.INIT ∧ p.daddr = d := by
  unfold sendInitPacket at h
  split at h
  · simp at h
    subst h
    exact ⟨rfl, rfl⟩
  · simp at h

theorem mem_sendTwoWayPacket {p : SentPacket} {t : neighborList} {routerId : Nat}
    {areaId : Int} {addr : Ipv4InterfaceAddress} {d : Nat}
    (h : p ∈ sendTwoWayPacket t routerId areaId addr d) :
    p.state = States.TWO_WAY ∧ p.daddr = d := by
  unfold sendTwoWayPacket at h
  split at h
  · simp at h
    subst h
    exact ⟨rfl, rfl⟩
  · simp at h

theorem handleDown_sends {p : SentPacket} {routerId : Nat} {areaId : Int}
    {table : neighborList} {helloHeader : OspfHello} {src : Nat}
    {ospfHeader : OspfHeader} {interface : Ipv4Interface} {incomingIf : Nat}
    (h : p ∈ (handleDownResponse routerId areaId table helloHeader src ospfHeader
        interface incomingIf).2) :
    p.state = States.INIT ∧ p.daddr = src := by
  unfold handleDownResponse at h
  split at h
  · exact mem_sendInitPacket h
  · simp at h

theorem handleInit_sends {p : SentPacket} {routerId : Nat} {areaId : Int}
    {table : neighborList} {helloHeader : OspfHello} {src : Nat}
    {ospfHeader : OspfHeader} {interface : Ipv4Interface} {incomingIf : Nat}
    (h : p ∈ (handleInitResponse routerId areaId table helloHeader src ospfHeader
        interface incomingIf).2) :
    (p.state = States.DOWN ∧ p.daddr = ospfAllNode) ∨
      (p.state = States.TWO_WAY ∧ p.daddr = src) := by
  simp only [handleInitResponse] at h
  repeat' split at h
  all_goals
    first
      | exact Or.inl (mem_sendDownPacket h)
      | exact Or.inr (mem_sendTwoWayPacket h)

theorem handleTwoWay_sends {p : SentPacket} {routerId : Nat} {areaId : Int}
    {table : neighborList} {helloHeader : OspfHello} {src : Nat}
    {ospfHeader : OspfHeader} {interface : Ipv4Interface} {incomingIf : Nat}
    (h : p ∈ (handleTwoWayResponse routerId areaId table helloHeader src ospfHeader
        interface incomingIf).2) :
    (p.state = States.DOWN ∧ p.daddr = ospfAllNode) ∨
      (p.state = States.TWO_WAY ∧ p.daddr = src) := by
  simp only [handleTwoWayResponse] at h
  repeat' split at h
  all_goals
    first
      | exact Or.inl (mem_sendDownPacket h)
      | exact Or.inr (mem_sendTwoWayPacket h)
      | simp at h

theorem unique_handleDown {table : neighborList} (h : uniquePerRouterId table)
    (routerId : Nat) (areaId : Int) (helloHeader : OspfHello) (src : Nat)
    (ospfHeader : OspfHeader) (interface : Ipv4Interface) (incomingIf : Nat) :
    uniquePerRouterId (handleDownResponse routerId areaId table helloHeader src ospfHeader
      interface incomingIf).1 := by
  simp only [handleDownResponse]
  repeat' split
  all_goals
    first
      | exact unique_addNeighbors h src ospfHeader.mask interface.ifid ospfHeader.state
          helloHeader.routerId
      | exact h

theorem unique_handleInit {table : neighborList} (h : uniquePerRouterId table)
    (routerId : Nat) (areaId : Int) (helloHeader : OspfHello) (src : Nat)
    (ospfHeader : OspfHeader) (interface : Ipv4Interface) (incomingIf : Nat) :
    uniquePerRouterId (handleInitResponse routerId areaId table helloHeader src ospfHeader
      interface incomingIf).1 := by
  simp only [handleInitResponse]
  repeat' split
  all_goals
    first
      | exact unique_addNeighbors h src ospfHeader.mask interface.ifid ospfHeader.state
          helloHeader.routerId
      | exact unique_set_State h States.INIT routerId
      | exact h

theorem unique_handleTwoWay {table : neighborList} (h : uniquePerRouterId table)
    (routerId : Nat) (areaId : Int) (helloHeader : OspfHello) (src : Nat)
    (ospfHeader : OspfHeader) (interface : Ipv4Interface) (incomingIf : Nat) :
    uniquePerRouterId (handleTwoWayResponse routerId areaId table helloHeader src ospfHeader
      interface incomingIf).1 := by
  simp only [handleTwoWayResponse]
  repeat' split
  all_goals
    first
      | exact unique_set_State h States.TWO_WAY routerId
      | exact h

/-! ### The claims -/

/-- C7: a Down-state packet whose advertised mask differs from the mask of
the receiving interface's address causes no neighbor-table change and no
reply. -/
theorem c7_handleDown_mask_mismatch (routerId : Nat) (areaId : Int)
    (table : neighborList) (helloHeader : OspfHello) (src : Nat)
    (ospfHeader : OspfHeader) (interface : Ipv4Interface) (incomingIf : Nat)
    (h : ospfHeader.mask ≠ (interface.getAddress incomingIf).mask) :
    handleDownResponse routerId areaId table helloHeader src ospfHeader interface incomingIf =
      (table, []) := by
  simp [handleDownResponse, h]

/-- C7 witness: a concrete Down packet advertising mask 7 against an
interface whose address has mask 255 leaves the table unchanged and sends
nothing. -/
theorem c7_handleDown_mask_mismatch_witness :
    handleDownResponse 1 0 [] ⟨[], 2, 0⟩ 20 ⟨States.DOWN, PacketType.HELLO, 7⟩
        ⟨0, [⟨10, 255, Scope.GLOBAL⟩]⟩ 0 = ([], []) :=
  c7_handleDown_mask_mismatch 1 0 [] ⟨[], 2, 0⟩ 20 ⟨States.DOWN, PacketType.HELLO, 7⟩
    ⟨0, [⟨10, 255, Scope.GLOBAL⟩]⟩ 0 (by decide)

/-- C9: a packet delivered to Receive without an incoming-interface tag is a
fatal error, surfaced before any state-machine dispatch: no table read or
write and no reply occurs. -/
theorem c9_receive_no_tag_aborts (routerId : Nat) (areaId : Int)
    (table : neighborList) (helloHeader : OspfHello) (src : Nat)
    (ospfHeader : OspfHeader) (interface : Ipv4Interface) (incomingIf : Nat) :
    receive routerId areaId table false helloHeader src ospfHeader interface incomingIf =
      Except.error "No incoming interface on RIP message, aborting." := by
  simp [receive]

/-- C5: an Init-state packet whose embedded neighbor snapshot is empty
produces, for any local table contents, exactly one Down-state reply (to the
multicast address) and no table mutation, provided the receiving interface
address is not host-scoped. -/
theorem c5_handleInit_empty_snapshot (routerId : Nat) (areaId : Int)
    (table : neighborList) (helloHeader : OspfHello) (src : Nat)
    (ospfHeader : OspfHeader) (interface : Ipv4Interface) (incomingIf : Nat)
    (h1 : helloHeader.neighbors = [])
    (h2 : (interface.getAddress incomingIf).scope ≠ Scope.HOST) :
    handleInitResponse routerId areaId table helloHeader src ospfHeader interface incomingIf =
      (table,
       [⟨(interface.getAddress incomingIf).localAddr, ospfAllNode,
         (interface.getAddress incomingIf).mask, ⟨table, routerId, areaId⟩,
         PacketType.HELLO, States.DOWN⟩]) := by
  simp [handleInitResponse, h1, sendDownPacket, getCurrentNeighbors, h2]

/-- C5 witness: a concrete Init packet with empty snapshot against a
one-entry table sends one Down packet and leaves the table unchanged. -/
theorem c5_handleInit_empty_snapshot_witness :
    handleInitResponse 1 0 [[⟨20, 255, 0, States.DOWN, 2⟩]] ⟨[], 2, 0⟩ 20
        ⟨States.INIT, PacketType.HELLO, 255⟩ ⟨0, [⟨10, 255, Scope.GLOBAL⟩]⟩ 0 =
      ([[⟨20, 255, 0, States.DOWN, 2⟩]],
       [⟨10, ospfAllNode, 255, ⟨[[⟨20, 255, 0, States.DOWN, 2⟩]], 1, 0⟩,
         PacketType.HELLO, States.DOWN⟩]) :=
  c5_handleInit_empty_snapshot 1 0 [[⟨20, 255, 0, States.DOWN, 2⟩]] ⟨[], 2, 0⟩ 20
    ⟨States.INIT, PacketType.HELLO, 255⟩ ⟨0, [⟨10, 255, Scope.GLOBAL⟩]⟩ 0
    (by decide) (by decide)

/-- C2: a Down-state packet with matching area and mask, handled with an
empty local table, yields a table with exactly one record, keyed by the
sender's router id at state Down, and exactly one Init-state packet
addressed to the packet's source (given a non-host-scoped interface
address). -/
theorem c2_handleDown_empty_table (routerId : Nat) (areaId : Int)
    (helloHeader : OspfHello) (src : Nat) (ospfHeader : OspfHeader)
    (interface : Ipv4Interface) (incomingIf : Nat)
    (h1 : helloHeader.areaId = areaId)
    (h2 : ospfHeader.mask = (interface.getAddress incomingIf).mask)
    (h3 : ospfHeader.state = States.DOWN)
    (h4 : (interface.getAddress incomingIf).scope ≠ Scope.HOST) :
    handleDownResponse routerId areaId [] helloHeader src ospfHeader interface incomingIf =
      ([[⟨src, ospfHeader.mask, interface.ifid, States.DOWN, helloHeader.routerId⟩]],
       [⟨(interface.getAddress incomingIf).localAddr, src,
         (interface.getAddress incomingIf).mask,
         ⟨[[⟨src, ospfHeader.mask, interface.ifid, States.DOWN, helloHeader.routerId⟩]],
          routerId, areaId⟩,
         PacketType.HELLO, States.INIT⟩]) := by
  simp [handleDownResponse, h1, h2, h3, addNeighbors, containsRouterId,
    sendInitPacket, getCurrentNeighbors, h4]

/-- C2 witness: router 1 in area 0 with an empty table handles a concrete
Down packet from router 2 at source 20; the result is one Down record for
router id 2 and one Init packet to 20. -/
theorem c2_handleDown_empty_table_witness :
    handleDownResponse 1 0 [] ⟨[], 2, 0⟩ 20 ⟨States.DOWN, PacketType.HELLO, 255⟩
        ⟨0, [⟨10, 255, Scope.GLOBAL⟩]⟩ 0 =
      ([[⟨20, 255, 0, States.DOWN, 2⟩]],
       [⟨10, 20, 255, ⟨[[⟨20, 255, 0, States.DOWN, 2⟩]], 1, 0⟩,
         PacketType.HELLO, States.INIT⟩]) :=
  c2_handleDown_empty_table 1 0 ⟨[], 2, 0⟩ 20 ⟨States.DOWN, PacketType.HELLO, 255⟩
    ⟨0, [⟨10, 255, Scope.GLOBAL⟩]⟩ 0 (by decide) (by decide) (by decide) (by decide)

/-- C1 counterexample: the claim says an area-mismatched packet never
triggers a reply, but handling a concrete Init-state packet whose hello
carries area 1 at a router configured for area 0 emits a (Down-state)
reply packet. -/
theorem c1_area_mismatch_counterexample :
    (handleInitResponse 1 0 [] ⟨[[⟨10, 255, 0, States.DOWN, 1⟩]], 2, 1⟩ 20
        ⟨States.INIT, PacketType.HELLO, 255⟩ ⟨0, [⟨10, 255, Scope.GLOBAL⟩]⟩ 0).2 ≠ [] := by
  decide

/-- C1 (amended): an incoming packet whose embedded area id differs from the
local area never mutates the neighbor table in any of the three handlers;
the Down handler also sends no reply, while the Init and Two-Way handlers
respond with a Down-state packet (through `sendDownPacket`, hence to the
multicast address and only from a non-host-scoped interface address). -/
theorem c1_area_mismatch_behaviour (routerId : Nat) (areaId : Int)
    (table : neighborList) (helloHeader : OspfHello) (src : Nat)
    (ospfHeader : OspfHeader) (interface : Ipv4Interface) (incomingIf : Nat)
    (h : helloHeader.areaId ≠ areaId) :
    handleDownResponse routerId areaId table helloHeader src ospfHeader interface incomingIf =
        (table, []) ∧
      handleInitResponse routerId areaId table helloHeader src ospfHeader interface incomingIf =
        (table, sendDownPacket table routerId areaId (interface.getAddress incomingIf)) ∧
      handleTwoWayResponse routerId areaId table helloHeader src ospfHeader interface incomingIf =
        (table, sendDownPacket table routerId areaId (interface.getAddress incomingIf)) := by
  have hb : (helloHeader.areaId == areaId) = false := by
    simpa using h
  refine ⟨?_, ?_, ?_⟩
  · simp [handleDownResponse, h]
  · by_cases he : helloHeader.neighbors.isEmpty <;>
      simp [handleInitResponse, he, hb]
  · by_cases he : helloHeader.neighbors.isEmpty <;>
      simp [handleTwoWayResponse, he, hb]

/-- C4: an Init-state packet that passes the mutual-visibility proof (the
local router id appears in a nonempty embedded snapshot and the areas
match), when the sender's router id is already present in the local table,
makes the handler set the state keyed by the *local* router id to Init and
send a Two-Way packet to the packet's source address. -/
theorem c4_handleInit_known_peer (routerId : Nat) (areaId : Int)
    (table : neighborList) (helloHeader : OspfHello) (src : Nat)
    (ospfHeader : OspfHeader) (interface : Ipv4Interface) (incomingIf : Nat)
    (h1 : containsRouterId helloHeader.neighbors routerId = true)
    (h2 : helloHeader.areaId = areaId)
    (h3 : containsRouterId table helloHeader.routerId = true)
    (h4 : (interface.getAddress incomingIf).scope ≠ Scope.HOST) :
    handleInitResponse routerId areaId table helloHeader src ospfHeader interface incomingIf =
      (set_State table States.INIT routerId,
       [⟨(interface.getAddress incomingIf).localAddr, src,
         (interface.getAddress incomingIf).mask,
         ⟨set_State table States.INIT routerId, routerId, areaId⟩,
         PacketType.HELLO, States.TWO_WAY⟩]) := by
  have hne : helloHeader.neighbors.isEmpty = false := isEmpty_false_of_contains h1
  have hte : table.isEmpty = false := isEmpty_false_of_contains h3
  simp [handleInitResponse, hne, h1, h2, h3, hte, sendTwoWayPacket,
    getCurrentNeighbors, h4]

/-- C4 witness: router 1 whose table knows router 2 handles a concrete Init
packet from router 2 whose snapshot names router 1; the record keyed by the
local id 1 is absent so the set-state is a no-op, and a Two-Way packet goes
to source 20. -/
theorem c4_handleInit_known_peer_witness :
    handleInitResponse 1 0 [[⟨20, 255, 0, States.DOWN, 2⟩]]
        ⟨[[⟨10, 255, 0, States.DOWN, 1⟩]], 2, 0⟩ 20 ⟨States.INIT, PacketType.HELLO, 255⟩
        ⟨0, [⟨10, 255, Scope.GLOBAL⟩]⟩ 0 =
      (set_State [[⟨20, 255, 0, States.DOWN, 2⟩]] States.INIT 1,
       [⟨10, 20, 255, ⟨set_State [[⟨20, 255, 0, States.DOWN, 2⟩]] States.INIT 1, 1, 0⟩,
         PacketType.HELLO, States.TWO_WAY⟩]) :=
  c4_handleInit_known_peer 1 0 [[⟨20, 255, 0, States.DOWN, 2⟩]]
    ⟨[[⟨10, 255, 0, States.DOWN, 1⟩]], 2, 0⟩ 20 ⟨States.INIT, PacketType.HELLO, 255⟩
    ⟨0, [⟨10, 255, Scope.GLOBAL⟩]⟩ 0 (by decide) (by decide) (by decide) (by decide)

/-- C3: a Two-Way-state packet that passes the mutual-visibility proof with
the sender already present in the local table: when the state recorded for
the local router id already reads Two-Way, nothing is sent and the table is
unchanged (terminal); otherwise the state keyed by the local router id is
set to Two-Way and a Two-Way packet is sent back to the source. -/
theorem c3_handleTwoWay_known_peer (routerId : Nat) (areaId : Int)
    (table : neighborList) (helloHeader : OspfHello) (src : Nat)
    (ospfHeader : OspfHeader) (interface : Ipv4Interface) (incomingIf : Nat)
    (h1 : containsRouterId helloHeader.neighbors routerId = true)
    (h2 : helloHeader.areaId = areaId)
    (h3 : containsRouterId table helloHeader.routerId = true)
    (h4 : (interface.getAddress incomingIf).scope ≠ Scope.HOST) :
    handleTwoWayResponse routerId areaId table helloHeader src ospfHeader interface incomingIf =
      if get_State table routerId = some States.TWO_WAY then (table, [])
      else
        (set_State table States.TWO_WAY routerId,
         [⟨(interface.getAddress incomingIf).localAddr, src,
           (interface.getAddress incomingIf).mask,
           ⟨set_State table States.TWO_WAY routerId, routerId, areaId⟩,
           PacketType.HELLO, States.TWO_WAY⟩]) := by
  have hne : helloHeader.neighbors.isEmpty = false := isEmpty_false_of_contains h1
  have hte : table.isEmpty = false := isEmpty_false_of_contains h3
  by_cases hs : get_State table routerId = some States.TWO_WAY <;>
    simp [handleTwoWayResponse, hne, h1, h2, h3, hte, hs, sendTwoWayPacket,
      getCurrentNeighbors, h4]

/-- C3 witness: router 1 whose table records itself at Two-Way and knows
router 2 handles a concrete Two-Way packet from router 2 naming router 1;
nothing is emitted and the table is unchanged. -/
theorem c3_handleTwoWay_known_peer_witness :
    handleTwoWayResponse 1 0 [[⟨20, 255, 0, States.DOWN, 2⟩], [⟨10, 255, 0, States.TWO_WAY, 1⟩]]
        ⟨[[⟨10, 255, 0, States.DOWN, 1⟩]], 2, 0⟩ 20 ⟨States.TWO_WAY, PacketType.HELLO, 255⟩
        ⟨0, [⟨10, 255, Scope.GLOBAL⟩]⟩ 0 =
      if get_State [[⟨20, 255, 0, States.DOWN, 2⟩], [⟨10, 255, 0, States.TWO_WAY, 1⟩]] 1 =
          some States.TWO_WAY then
        ([[⟨20, 255, 0, States.DOWN, 2⟩], [⟨10, 255, 0, States.TWO_WAY, 1⟩]], [])
      else
        (set_State [[⟨20, 255, 0, States.DOWN, 2⟩], [⟨10, 255, 0, States.TWO_WAY, 1⟩]]
           States.TWO_WAY 1,
         [⟨10, 20, 255,
           ⟨set_State [[⟨20, 255, 0, States.DOWN, 2⟩], [⟨10, 255, 0, States.TWO_WAY, 1⟩]]
              States.TWO_WAY 1, 1, 0⟩,
           PacketType.HELLO, States.TWO_WAY⟩]) :=
  c3_handleTwoWay_known_peer 1 0
    [[⟨20, 255, 0, States.DOWN, 2⟩], [⟨10, 255, 0, States.TWO_WAY, 1⟩]]
    ⟨[[⟨10, 255, 0, States.DOWN, 1⟩]], 2, 0⟩ 20 ⟨States.TWO_WAY, PacketType.HELLO, 255⟩
    ⟨0, [⟨10, 255, Scope.GLOBAL⟩]⟩ 0 (by decide) (by decide) (by decide) (by decide)

/-- C6: the not-found lookup is surfaced (`get_State` of an absent router id
is `none`), but the Two-Way handler nevertheless continues its transition
logic past that lookup: with the local router id 1 absent from the table
(which only records the peer, router id 2), handling a valid Two-Way packet
still branches on the lookup result and emits a reply.  This exhibits the
code-level violation of the claim's requirement. -/
theorem c6_twoWay_absent_local_lookup_proceeds :
    get_State [[⟨20, 255, 0, States.DOWN, 2⟩]] 1 = none ∧
      (handleTwoWayResponse 1 0 [[⟨20, 255, 0, States.DOWN, 2⟩]]
          ⟨[[⟨10, 255, 0, States.DOWN, 1⟩]], 2, 0⟩ 20 ⟨States.TWO_WAY, PacketType.HELLO, 255⟩
          ⟨0, [⟨10, 255, Scope.GLOBAL⟩]⟩ 0).2 ≠ [] := by
  decide

/-- C8: the neighbor table holds at most one record per router id: a second
`addNeighbors` with the same router id is a no-op retaining the first
insertion's attributes, a table satisfying the uniqueness invariant records
the doubly-added id exactly once, and each of the three handlers preserves
the uniqueness invariant. -/
theorem c8_addNeighbors_idempotent_and_unique (t : neighborList)
    (p m i : Nat) (s : States) (rid : Nat) (p2 m2 i2 : Nat) (s2 : States)
    (routerId : Nat) (areaId : Int) (helloHeader : OspfHello) (src : Nat)
    (ospfHeader : OspfHeader) (interface : Ipv4Interface) (incomingIf : Nat)
    (h : uniquePerRouterId t) :
    addNeighbors (addNeighbors t p m i s rid) p2 m2 i2 s2 rid =
        addNeighbors t p m i s rid ∧
      ridCount (addNeighbors (addNeighbors t p m i s rid) p2 m2 i2 s2 rid) rid = 1 ∧
      uniquePerRouterId
        (handleDownResponse routerId areaId t helloHeader src ospfHeader interface incomingIf).1 ∧
      uniquePerRouterId
        (handleInitResponse routerId areaId t helloHeader src ospfHeader interface incomingIf).1 ∧
      uniquePerRouterId
        (handleTwoWayResponse routerId areaId t helloHeader src ospfHeader interface incomingIf).1 := by
  have hidem : addNeighbors (addNeighbors t p m i s rid) p2 m2 i2 s2 rid =
      addNeighbors t p m i s rid :=
    addNeighbors_already (contains_addNeighbors_self t p m i s rid) p2 m2 i2 s2
  have hcount : ridCount (addNeighbors t p m i s rid) rid = 1 := by
    by_cases hc : containsRouterId t rid = true
    · rw [addNeighbors_already hc]
      have ha := h rid
      have hb := ridCount_pos_of_contains hc
      omega
    · have hc' : containsRouterId t rid = false := by simpa using hc
      rw [ridCount_addNeighbors_of_not_contains hc']
      simp [ridCount_eq_zero_of_not_contains hc']
  exact ⟨hidem, by rw [hidem]; exact hcount,
    unique_handleDown h routerId areaId helloHeader src ospfHeader interface incomingIf,
    unique_handleInit h routerId areaId helloHeader src ospfHeader interface incomingIf,
    unique_handleTwoWay h routerId areaId helloHeader src ospfHeader interface incomingIf⟩

/-- C8 witness: double insertion of router id 7 into the empty table (with
differing second-call attributes) keeps exactly the first record, and the
concrete handler runs preserve uniqueness. -/
theorem c8_addNeighbors_idempotent_and_unique_witness :
    addNeighbors (addNeighbors [] 20 255 0 States.DOWN 7) 21 7 1 States.INIT 7 =
        addNeighbors [] 20 255 0 States.DOWN 7 ∧
      ridCount (addNeighbors (addNeighbors [] 20 255 0 States.DOWN 7) 21 7 1 States.INIT 7) 7 = 1 ∧
      uniquePerRouterId
        (handleDownResponse 1 0 [] ⟨[], 2, 0⟩ 20 ⟨States.DOWN, PacketType.HELLO, 255⟩
          ⟨0, [⟨10, 255, Scope.GLOBAL⟩]⟩ 0).1 ∧
      uniquePerRouterId
        (handleInitResponse 1 0 [] ⟨[], 2, 0⟩ 20 ⟨States.DOWN, PacketType.HELLO, 255⟩
          ⟨0, [⟨10, 255, Scope.GLOBAL⟩]⟩ 0).1 ∧
      uniquePerRouterId
        (handleTwoWayResponse 1 0 [] ⟨[], 2, 0⟩ 20 ⟨States.DOWN, PacketType.HELLO, 255⟩
          ⟨0, [⟨10, 255, Scope.GLOBAL⟩]⟩ 0).1 :=
  c8_addNeighbors_idempotent_and_unique [] 20 255 0 States.DOWN 7 21 7 1 States.INIT
    1 0 ⟨[], 2, 0⟩ 20 ⟨States.DOWN, PacketType.HELLO, 255⟩ ⟨0, [⟨10, 255, Scope.GLOBAL⟩]⟩ 0
    (fun _ => Nat.zero_le 1)

/-- C10: every packet the protocol hands to the transport — whether produced
by `sendDownPacket` (used by the bootstrap self-announcement and by every
restart-discovery reply) or by any of the three packet handlers — is either
a Down-state packet addressed to the fixed multicast destination
`OSPF_ALL_NODE`, or an Init- or Two-Way-state packet addressed unicast to
the incoming packet's source address. -/
theorem c10_packet_addressing (routerId : Nat) (areaId : Int)
    (table : neighborList) (helloHeader : OspfHello) (src : Nat)
    (ospfHeader : OspfHeader) (interface : Ipv4Interface) (incomingIf : Nat)
    (addr : Ipv4InterfaceAddress) (p : SentPacket)
    (hp : p ∈ sendDownPacket table routerId areaId addr ++
        (handleDownResponse routerId areaId table helloHeader src ospfHeader
          interface incomingIf).2 ++
        (handleInitResponse routerId areaId table helloHeader src ospfHeader
          interface incomingIf).2 ++
        (handleTwoWayResponse routerId areaId table helloHeader src ospfHeader
          interface incomingIf).2) :
    (p.state = States.DOWN ∧ p.daddr = ospfAllNode) ∨
      ((p.state = States.INIT ∨ p.state = States.TWO_WAY) ∧ p.daddr = src) := by
  simp only [List.append_assoc, List.mem_append] at hp
  rcases hp with hp | hp | hp | hp
  · exact Or.inl (mem_sendDownPacket hp)
  · have := handleDown_sends hp
    exact Or.inr ⟨Or.inl this.1, this.2⟩
  · rcases handleInit_sends hp with h | h
    · exact Or.inl h
    · exact Or.inr ⟨Or.inr h.1, h.2⟩
  · rcases handleTwoWay_sends hp with h | h
    · exact Or.inl h
    · exact Or.inr ⟨Or.inr h.1, h.2⟩

/-- C10 witness: the bootstrap Down packet sent from the concrete address
10/255 is in the combined output and is addressed to `OSPF_ALL_NODE` with
state DOWN. -/
theorem c10_packet_addressing_witness :
    (SentPacket.mk 10 ospfAllNode 255 ⟨[], 1, 0⟩ PacketType.HELLO States.DOWN).state =
          States.DOWN ∧
        (SentPacket.mk 10 ospfAllNode 255 ⟨[], 1, 0⟩ PacketType.HELLO States.DOWN).daddr =
          ospfAllNode ∨
      ((SentPacket.mk 10 ospfAllNode 255 ⟨[], 1, 0⟩ PacketType.HELLO States.DOWN).state =
            States.INIT ∨
          (SentPacket.mk 10 ospfAllNode 255 ⟨[], 1, 0⟩ PacketType.HELLO
              States.DOWN).state =
            States.TWO_WAY) ∧
        (SentPacket.mk 10 ospfAllNode 255 ⟨[], 1, 0⟩ PacketType.HELLO States.DOWN).daddr =
          20 :=
  c10_packet_addressing 1 0 [] ⟨[], 2, 1⟩ 20 ⟨States.ATTEMPT, PacketType.HELLO, 255⟩
    ⟨0, [⟨10, 255, Scope.GLOBAL⟩]⟩ 0 ⟨10, 255, Scope.GLOBAL⟩
    ⟨10, ospfAllNode, 255, ⟨[], 1, 0⟩, PacketType.HELLO, States.DOWN⟩ (by decide)

/-- C1 witness: a concrete Two-Way packet carrying area 1 at a router in
area 0 leaves the table untouched; the Down handler stays silent and the
Init/Two-Way handlers produce the Down-state reply. -/
theorem c1_area_mismatch_behaviour_witness :
    handleDownResponse 1 0 [] ⟨[[⟨10, 255, 0, States.DOWN, 1⟩]], 2, 1⟩ 20
        ⟨States.TWO_WAY, PacketType.HELLO, 255⟩ ⟨0, [⟨10, 255, Scope.GLOBAL⟩]⟩ 0 = ([], []) ∧
      handleInitResponse 1 0 [] ⟨[[⟨10, 255, 0, States.DOWN, 1⟩]], 2, 1⟩ 20
        ⟨States.TWO_WAY, PacketType.HELLO, 255⟩ ⟨0, [⟨10, 255, Scope.GLOBAL⟩]⟩ 0 =
        ([], sendDownPacket [] 1 0 (Ipv4Interface.getAddress ⟨0, [⟨10, 255, Scope.GLOBAL⟩]⟩ 0)) ∧
      handleTwoWayResponse 1 0 [] ⟨[[⟨10, 255, 0, States.DOWN, 1⟩]], 2, 1⟩ 20
        ⟨States.TWO_WAY, PacketType.HELLO, 255⟩ ⟨0, [⟨10, 255, Scope.GLOBAL⟩]⟩ 0 =
        ([], sendDownPacket [] 1 0 (Ipv4Interface.getAddress ⟨0, [⟨10, 255, Scope.GLOBAL⟩]⟩ 0)) :=
  c1_area_mismatch_behaviour 1 0 [] ⟨[[⟨10, 255, 0, States.DOWN, 1⟩]], 2, 1⟩ 20
    ⟨States.TWO_WAY, PacketType.HELLO, 255⟩ ⟨0, [⟨10, 255, Scope.GLOBAL⟩]⟩ 0 (by decide)

end Ospf
